import Mathlib

/-!
Verification of the GRPO reward-scoring logic of this repository.

The four reward functions (`match_format_exactly`, `match_format_approximately`,
`check_answer`, `check_numbers`) and the helpers they use
(`extract_hash_answer`, the `match_format` and `match_numbers` regular
expressions) are embedded as executable Lean functions on `List Char`
(Python strings).  Rewards are modelled as exact rationals `ℚ`; every float
literal occurring in the source (3.0, 1.5, 0.5, 0.25, -0.5, -1.0) is an exact
binary rational, and sums of them are exact, so this is faithful.  Character
classes (`\s`, `\d`, `str.strip`) are modelled on their ASCII parts.
-/

/-- Whitespace characters recognised by Python's `\s` and `str.strip`
(ASCII part). -/
def isWS (c : Char) : Bool :=
  c = ' ' || c = '\t' || c = '\n' || c = '\r' || c = '\x0b' || c = '\x0c'

/-- Characters matched by the `[\d\.]` class of the `match_numbers` regex
(ASCII digits and the dot). -/
def isDigitDot (c : Char) : Bool :=
  c.isDigit || c = '.'

/-- `reasoning_start = "<start_working_out>"` from the notebook. -/
def reasoning_start : List Char := "<start_working_out>".data

/-- `reasoning_end = "<end_working_out>"` from the notebook. -/
def reasoning_end : List Char := "<end_working_out>".data

/-- `solution_start = "<SOLUTION>"` from the notebook. -/
def solution_start : List Char := "<SOLUTION>".data

/-- `solution_end = "</SOLUTION>"` from the notebook. -/
def solution_end : List Char := "</SOLUTION>".data

/-- The keyword `"question"` looked up in `kargs` by `check_numbers`. -/
def qkey : List Char := "question".data

/-- The separator `"####"` used by `extract_hash_answer`. -/
def hashes : List Char := "####".data

/-- Python `str.strip()`: remove leading and trailing whitespace. -/
def pyStrip (s : List Char) : List Char :=
  ((s.dropWhile isWS).reverse.dropWhile isWS).reverse

/-- Value of a list of decimal digits, most significant first. -/
def digitsVal (ds : List Char) : ℕ :=
  ds.foldl (fun a c => a * 10 + (c.toNat - 48)) 0

/-- Exponent part of the grammar of the Python builtin `float`: either
nothing, or `e`/`E`, an optional sign and a nonempty digit string. -/
def parseExpInt : List Char → Option ℤ
  | [] => some 0
  | e :: r1 =>
    if e = 'e' || e = 'E' then
      let p : ℤ × List Char :=
        match r1 with
        | '+' :: r2 => (1, r2)
        | '-' :: r2 => (-1, r2)
        | _ => (1, r1)
      let ds := p.2.takeWhile Char.isDigit
      if ds.isEmpty || !(p.2.dropWhile Char.isDigit).isEmpty then none
      else some (p.1 * (digitsVal ds : ℤ))
    else none

/-- Parsing stage of the Python builtin `float` applied to a string:
surrounding whitespace is ignored, then an optional sign, then `digits`,
`digits.digits`, `digits.`, or `.digits`, then an optional exponent.
Returns (negative, integer part, fraction part, fraction digit count,
exponent). -/
def pyFloatParse (s : List Char) : Option (Bool × ℕ × ℕ × ℕ × ℤ) :=
  let t := pyStrip s
  let p : Bool × List Char :=
    match t with
    | '+' :: r => (false, r)
    | '-' :: r => (true, r)
    | _ => (false, t)
  let u := p.2
  let ip := u.takeWhile Char.isDigit
  let r1 := u.dropWhile Char.isDigit
  let frac : Option (ℕ × ℕ × List Char) :=
    match r1 with
    | '.' :: r2 =>
      if ip.isEmpty && (r2.takeWhile Char.isDigit).isEmpty then none
      else some (digitsVal (r2.takeWhile Char.isDigit),
        (r2.takeWhile Char.isDigit).length, r2.dropWhile Char.isDigit)
    | _ => if ip.isEmpty then none else some (0, 0, r1)
  match frac with
  | none => none
  | some f =>
    match parseExpInt f.2.2 with
    | none => none
    | some e => some (p.1, digitsVal ip, f.1, f.2.1, e)

/-- The rational value of a parsed `float` literal. -/
def pyFloatVal (q : Bool × ℕ × ℕ × ℕ × ℤ) : ℚ :=
  (if q.1 then -1 else 1) * ((q.2.1 : ℚ) + (q.2.2.1 : ℚ) / 10 ^ q.2.2.2.1)
    * (10 : ℚ) ^ q.2.2.2.2

/-- Model of the Python builtin `float` applied to a string.  The value is
taken exactly as a rational; the special forms `inf`/`nan`, digit
underscores and IEEE-754 rounding are outside the scope of the claims and
are not modelled. -/
def pyFloat (s : List Char) : Option ℚ :=
  (pyFloatParse s).map pyFloatVal

/-- All decompositions `s = before ++ pat ++ after`, ordered by increasing
length of `before`.  This enumerates the candidate ways a lazy `.*?`/`.+?`
followed by the literal `pat` can proceed, in backtracking order. -/
def allSplits (pat : List Char) : List Char → List (List Char × List Char)
  | [] => if pat.isPrefixOf ([] : List Char) then [([], [])] else []
  | c :: cs =>
    (if pat.isPrefixOf (c :: cs) then [([], (c :: cs).drop pat.length)] else [])
      ++ (allSplits pat cs).map (fun q => (c :: q.1, q.2))

/-- The first decomposition `s = before ++ pat ++ after` (leftmost occurrence
of the literal `pat`), as found by `re.search` for a pattern starting with
`pat`, or by `str.split(pat)` for its first piece. -/
def splitFirst (pat : List Char) : List Char → Option (List Char × List Char)
  | [] => if pat.isPrefixOf ([] : List Char) then some ([], []) else none
  | c :: cs =>
    if pat.isPrefixOf (c :: cs) then some ([], (c :: cs).drop pat.length)
    else (splitFirst pat cs).map (fun q => (c :: q.1, q.2))

/-- Helper for `countOcc`: scan the string left to right, skipping the stated
number of characters after a match so that counted occurrences do not
overlap. -/
def countOccGo (pat : List Char) : ℕ → List Char → ℕ
  | _, [] => 0
  | 0, c :: cs =>
    if pat.isPrefixOf (c :: cs) then countOccGo pat (pat.length - 1) cs + 1
    else countOccGo pat 0 cs
  | k + 1, _ :: cs => countOccGo pat k cs

/-- Python `str.count(pat)` for a nonempty `pat`: the number of
non-overlapping occurrences of `pat`, scanning from the left. -/
def countOcc (pat s : List Char) : ℕ :=
  countOccGo pat 0 s

/-- The trailing `[\s]{0,}$` of the `match_format` regex under
`re.MULTILINE`: after greedily consuming whitespace, `$` must hold, i.e.
either the rest of the string is all whitespace, or a newline occurs within
the consumed whitespace run. -/
def tailOK (t : List Char) : Bool :=
  (t.dropWhile isWS).isEmpty || (t.takeWhile isWS).contains '\n'

/-- Backtracking continuation of `match_format` after `solution_start` has
been consumed: the lazy group `(.+?)` grows until `solution_end` followed by
a succeeding `[\s]{0,}$` is found; returns the captured group. -/
def solutionPart (u : List Char) : Option (List Char) :=
  (allSplits solution_end u).findSome? fun q =>
    if q.1.isEmpty then none
    else if tailOK q.2 then some q.1 else none

/-- Backtracking continuation of `match_format` after `reasoning_end` has
been consumed: the lazy gap `.*?` grows until `solution_start` followed by a
succeeding continuation is found. -/
def gapPart (u : List Char) : Option (List Char) :=
  (allSplits solution_start u).findSome? fun q => solutionPart q.2

/-- Backtracking continuation of `match_format` after `reasoning_start` has
been consumed: the lazy `.+?` (at least one character) grows until
`reasoning_end` followed by a succeeding continuation is found. -/
def reasoningPart (u : List Char) : Option (List Char) :=
  (allSplits reasoning_end u).findSome? fun q =>
    if q.1.isEmpty then none else gapPart q.2

/-- One attempt of the `match_format` regex at a fixed start position: the
greedy `[\s]{0,}` must consume the whole whitespace run (the following
literal starts with `<`, which is not whitespace), then `reasoning_start`
must follow literally. -/
def matchAt (u : List Char) : Option (List Char) :=
  let u1 := u.dropWhile isWS
  if reasoning_start.isPrefixOf u1 then reasoningPart (u1.drop reasoning_start.length)
  else none

/-- Scan of `re.search` over the later start positions permitted by the `^`
anchor under `re.MULTILINE`: every position just after a newline, in order. -/
def searchLines : List Char → Option (List Char)
  | [] => none
  | c :: cs =>
    if c = '\n' then
      match matchAt cs with
      | some g => some g
      | none => searchLines cs
    else searchLines cs

/-- `match_format.search(s)`, returning `group(1)` of the leftmost match of
the regex
`^[\s]{0,}<start_working_out>.+?<end_working_out>.*?<SOLUTION>(.+?)</SOLUTION>[\s]{0,}$`
compiled with `re.MULTILINE | re.DOTALL`: the `^` anchor admits position 0
and every position following a newline, tried left to right. -/
def match_format_search (s : List Char) : Option (List Char) :=
  match matchAt s with
  | some g => some g
  | none => searchLines s

/-- `match_numbers.search(s)` for the regex `<SOLUTION>.*?([\d\.]{1,})`
(`re.MULTILINE | re.DOTALL`): after the first occurrence of `<SOLUTION>`,
skip to the first digit-or-dot character and capture the maximal run of
digit-or-dot characters from there. -/
def match_numbers_search (s : List Char) : Option (List Char) :=
  match splitFirst solution_start s with
  | none => none
  | some q =>
    let r2 := q.2.dropWhile (fun c => !isDigitDot c)
    match r2 with
    | [] => none
    | _ :: _ => some (r2.takeWhile isDigitDot)

/-- `extract_hash_answer(text)`: `None` when `"####"` does not occur in
`text`, otherwise `text.split("####")[1].strip()` (the piece between the
first and second occurrence, or everything after the first occurrence when
there is no second one). -/
def extract_hash_answer (text : List Char) : Option (List Char) :=
  match splitFirst hashes text with
  | none => none
  | some q =>
    some (pyStrip (match splitFirst hashes q.2 with
      | some q2 => q2.1
      | none => q.2))

/-- Loop body of `match_format_exactly`: 3.0 when `match_format.search`
succeeds on the completion, else 0. -/
def match_format_exactly_score (completion : List Char) : ℚ :=
  if (match_format_search completion).isSome then 3 else 0

/-- `match_format_exactly(prompts, completions, **kargs)`. -/
def match_format_exactly (prompts completions : List (List Char))
    (kargs : List (List Char × List (List Char))) : List ℚ :=
  completions.map match_format_exactly_score

/-- Loop body of `match_format_approximately`: for each of the four markers,
+0.5 when it occurs exactly once in the completion and -0.5 otherwise. -/
def match_format_approximately_score (response : List Char) : ℚ :=
  (if countOcc reasoning_start response = 1 then (1 : ℚ) / 2 else -(1 / 2))
    + (if countOcc reasoning_end response = 1 then (1 : ℚ) / 2 else -(1 / 2))
    + (if countOcc solution_start response = 1 then (1 : ℚ) / 2 else -(1 / 2))
    + (if countOcc solution_end response = 1 then (1 : ℚ) / 2 else -(1 / 2))

/-- `match_format_approximately(prompts, completions, **kargs)`. -/
def match_format_approximately (prompts completions : List (List Char))
    (kargs : List (List Char × List (List Char))) : List ℚ :=
  completions.map match_format_approximately_score

/-- Number of the four markers that are missing or duplicated in a response
(occurrence count different from one). -/
def marker_misses (response : List Char) : ℕ :=
  (if countOcc reasoning_start response = 1 then 0 else 1)
    + (if countOcc reasoning_end response = 1 then 0 else 1)
    + (if countOcc solution_start response = 1 then 0 else 1)
    + (if countOcc solution_end response = 1 then 0 else 1)

/-- A string containing none of the four format markers as a substring
(describes the reasoning and solution texts of a well-formed block). -/
def markerFree (s : List Char) : Bool :=
  (allSplits reasoning_start s).isEmpty && (allSplits reasoning_end s).isEmpty
    && (allSplits solution_start s).isEmpty && (allSplits solution_end s).isEmpty

/-- Loop body of `check_answer` for one extracted guess and the true answer:
3.0 on exact string equality, 1.5 on equality after stripping, then the
ratio bands 0.5 / 0.25 / -1.0, with -0.5 when `float` conversion or the
division raises (non-numeric text or zero true answer). -/
def check_answer_score (guess : Option (List Char)) (true_answer : List Char) : ℚ :=
  match guess with
  | none => 0
  | some g =>
    if g = true_answer then 3
    else if pyStrip g = pyStrip true_answer then 3 / 2
    else
      match pyFloat g, pyFloat true_answer with
      | some x, some y =>
        if y = 0 then -(1 / 2)
        else if 9 / 10 ≤ x / y ∧ x / y ≤ 11 / 10 then 1 / 2
        else if 4 / 5 ≤ x / y ∧ x / y ≤ 6 / 5 then 1 / 4
        else -1
      | _, _ => -(1 / 2)

/-- `check_answer(prompts, completions, answer, **kargs)` when all ground
truth answers are strings. -/
def check_answer (prompts completions : List (List Char))
    (answer : List (List Char)) (kargs : List (List Char × List (List Char))) : List ℚ :=
  List.zipWith check_answer_score (completions.map match_format_search) answer

/-- Loop body of `check_answer` when the ground truth may be `None` (as
`extract_hash_answer` produces): a `None` guess scores 0 before the ground
truth is touched, but a present guess compared against a `None` ground truth
reaches `true_answer.strip()`, which raises `AttributeError` outside
the `try` block. -/
def check_answer_score_exc :
    Option (List Char) → Option (List Char) → Except Unit ℚ
  | none, _ => .ok 0
  | some g, some t => .ok (check_answer_score (some g) t)
  | some _, none => .error ()

/-- The scoring loop of `check_answer`, propagating the first raised
exception. -/
def check_answer_loop :
    List (Option (List Char) × Option (List Char)) → Except Unit (List ℚ)
  | [] => .ok []
  | q :: rest =>
    match check_answer_score_exc q.1 q.2 with
    | .error e => .error e
    | .ok s => (check_answer_loop rest).map (fun l => s :: l)

/-- `check_answer(prompts, completions, answer, **kargs)` with ground truth
entries of type `str | None`, the type produced by `extract_hash_answer`. -/
def check_answer_opt (prompts completions : List (List Char))
    (answer : List (Option (List Char)))
    (kargs : List (List Char × List (List Char))) : Except Unit (List ℚ) :=
  check_answer_loop ((completions.map match_format_search).zip answer)

/-- Loop body of `check_numbers`: inside `try`, the stripped true answer and
then the stripped guess are converted with `float`; 1.5 on equality of the
two numbers, 0.0 on inequality, and 0 when either conversion raises. -/
def check_numbers_score (guess : Option (List Char)) (true_answer : List Char) : ℚ :=
  match guess with
  | none => 0
  | some g =>
    match pyFloat (pyStrip true_answer), pyFloat (pyStrip g) with
    | some y, some x => if x = y then 3 / 2 else 0
    | _, _ => 0

/-- `check_numbers(prompts, completions, answer, **kargs)`.  Before the loop
it evaluates `kargs["question"]` (a missing key raises `KeyError`) and
prints `question[0]`, `answer[0]`, `responses[0]` and
`extracted_responses[0]`, each of which raises `IndexError` on an empty
sequence. -/
def check_numbers (prompts completions : List (List Char))
    (answer : List (List Char)) (kargs : List (List Char × List (List Char))) :
    Except Unit (List ℚ) :=
  match kargs.lookup qkey with
  | none => .error ()
  | some question =>
    if question.isEmpty then .error ()
    else if answer.isEmpty then .error ()
    else if completions.isEmpty then .error ()
    else .ok (List.zipWith check_numbers_score
      (completions.map match_numbers_search) answer)

/-! ### Helper lemmas about the embedded matcher -/

theorem dropWhile_eq_nil_of_all {p : Char → Bool} :
    ∀ (t : List Char), (∀ x ∈ t, p x = true) → t.dropWhile p = []
  | [], _ => rfl
  | c :: cs, h => by
    rw [List.dropWhile_cons_of_pos (h c (List.mem_cons_self c cs))]
    exact dropWhile_eq_nil_of_all cs (fun x hx => h x (List.mem_cons_of_mem c hx))

theorem mem_allSplits (pat : List Char) :
    ∀ (b a : List Char), (b, a) ∈ allSplits pat (b ++ pat ++ a)
  | [], a => by
    simp only [List.nil_append]
    cases hpa : pat ++ a with
    | nil =>
      rcases List.append_eq_nil.mp hpa with ⟨h1, h2⟩
      subst h1; subst h2
      simp [allSplits]
    | cons c cs =>
      have hpre : pat.isPrefixOf (c :: cs) = true := by
        rw [← hpa]
        simp [List.isPrefixOf_iff_prefix]
      have hdrop : (c :: cs).drop pat.length = a := by
        rw [← hpa, List.drop_left]
      simp [allSplits, hpre, hdrop]
  | c :: b, a => by
    simp only [List.cons_append]
    simp only [allSplits, List.mem_append, List.mem_map]
    right
    exact ⟨(b, a), mem_allSplits pat b a, rfl⟩

theorem tailOK_of_all_ws (t : List Char) (h : ∀ x ∈ t, isWS x = true) :
    tailOK t = true := by
  simp [tailOK, dropWhile_eq_nil_of_all t h]

theorem tailOK_newline (t : List Char) : tailOK ('\n' :: t) = true := by
  have hnl : isWS '\n' = true := rfl
  simp [tailOK, List.takeWhile_cons_of_pos hnl]

theorem solutionPart_isSome (c tail : List Char) (hc : c ≠ [])
    (htail : tailOK tail = true) :
    (solutionPart (c ++ (solution_end ++ tail))).isSome := by
  rw [← List.append_assoc, solutionPart, List.findSome?_isSome_iff]
  refine ⟨(c, tail), mem_allSplits solution_end c tail, ?_⟩
  simp [List.isEmpty_eq_false.mpr hc, htail]

theorem gapPart_isSome (g rest : List Char) (h : (solutionPart rest).isSome) :
    (gapPart (g ++ (solution_start ++ rest))).isSome := by
  rw [← List.append_assoc, gapPart, List.findSome?_isSome_iff]
  exact ⟨(g, rest), mem_allSplits solution_start g rest, h⟩

theorem reasoningPart_isSome (a rest : List Char) (ha : a ≠ [])
    (h : (gapPart rest).isSome) :
    (reasoningPart (a ++ (reasoning_end ++ rest))).isSome := by
  rw [← List.append_assoc, reasoningPart, List.findSome?_isSome_iff]
  refine ⟨(a, rest), mem_allSplits reasoning_end a rest, ?_⟩
  simpa [List.isEmpty_eq_false.mpr ha] using h

theorem matchAt_isSome (w1 rest : List Char) (hw1 : ∀ x ∈ w1, isWS x = true)
    (h : (reasoningPart rest).isSome) :
    (matchAt (w1 ++ (reasoning_start ++ rest))).isSome := by
  have hrs : reasoning_start = '<' :: "start_working_out>".data := by decide
  have hlt : isWS '<' = false := rfl
  have hdw : (w1 ++ (reasoning_start ++ rest)).dropWhile isWS
      = reasoning_start ++ rest := by
    rw [List.dropWhile_append_of_pos hw1, hrs, List.cons_append,
      List.dropWhile_cons_of_neg (by simp [hlt]), ← List.cons_append, ← hrs]
  have hpre : reasoning_start.isPrefixOf (reasoning_start ++ rest) = true := by
    simp [List.isPrefixOf_iff_prefix]
  simp only [matchAt, hdw, hpre, if_true, List.drop_left]
  exact h

theorem match_format_search_isSome (s : List Char) (h : (matchAt s).isSome) :
    (match_format_search s).isSome := by
  rw [match_format_search]
  rcases Option.isSome_iff_exists.mp h with ⟨g, hg⟩
  rw [hg]
  rfl

/-- C1: a completion that consists, up to leading and trailing whitespace, of
exactly one well-formed tagged block — reasoning-start marker, non-empty
reasoning text, reasoning-end marker, then solution-start marker, non-empty
solution text, solution-end marker, in that order, with marker-free texts —
is assigned the maximum exact-format bonus 3.0 by `match_format_exactly`. -/
theorem match_format_exactly_single_block
    (prompts : List (List Char)) (kargs : List (List Char × List (List Char)))
    (w1 a c w2 : List Char)
    (hw1 : ∀ x ∈ w1, isWS x = true) (hw2 : ∀ x ∈ w2, isWS x = true)
    (ha : a ≠ []) (hc : c ≠ [])
    (haf : markerFree a = true) (hcf : markerFree c = true) :
    match_format_exactly prompts
      [w1 ++ reasoning_start ++ a ++ reasoning_end
        ++ solution_start ++ c ++ solution_end ++ w2] kargs = [3] := by
  have hAt : (matchAt (w1 ++ (reasoning_start ++ (a ++ (reasoning_end
      ++ (solution_start ++ (c ++ (solution_end ++ w2)))))))).isSome := by
    apply matchAt_isSome w1 _ hw1
    apply reasoningPart_isSome a _ ha
    exact gapPart_isSome [] _ (solutionPart_isSome c w2 hc (tailOK_of_all_ws w2 hw2))
  have hs := match_format_search_isSome _ hAt
  simp only [match_format_exactly, List.map_cons, List.map_nil,
    match_format_exactly_score, List.append_assoc, hs, if_true]

/-- Witness for C1 at a concrete completion. -/
theorem match_format_exactly_single_block_witness :
    match_format_exactly []
      [" ".data ++ reasoning_start ++ "Let me think!".data ++ reasoning_end
        ++ solution_start ++ "2".data ++ solution_end ++ "\n ".data] [] = [3] :=
  match_format_exactly_single_block [] [] " ".data "Let me think!".data "2".data
    "\n ".data (by decide) (by decide) (by decide) (by decide) (by decide) (by decide)

/-- C6 (amended): `match_format_exactly` awards the fixed 3.0 bonus exactly
when `match_format.search` finds at least one match of the tagged structure
(not: exactly one); in particular a completion consisting of two complete
well-formed blocks on consecutive lines still receives the bonus. -/
theorem match_format_exactly_search_iff
    (prompts : List (List Char)) (kargs : List (List Char × List (List Char)))
    (r a1 c1 a2 c2 : List Char) (ha1 : a1 ≠ []) (hc1 : c1 ≠ []) :
    (match_format_exactly prompts [r] kargs = [3]
      ↔ (match_format_search r).isSome)
    ∧ match_format_exactly prompts
        [reasoning_start ++ a1 ++ reasoning_end ++ solution_start ++ c1
          ++ solution_end ++ ('\n' :: (reasoning_start ++ a2 ++ reasoning_end
          ++ solution_start ++ c2 ++ solution_end))] kargs = [3] := by
  constructor
  · constructor
    · intro h
      by_contra hn
      simp only [match_format_exactly, List.map_cons, List.map_nil,
        match_format_exactly_score, hn, if_false] at h
      have h0 : (0 : ℚ) = 3 := by injection h
      norm_num at h0
    · intro h
      simp [match_format_exactly, match_format_exactly_score, h]
  · have hAt : (matchAt (reasoning_start ++ (a1 ++ (reasoning_end
        ++ (solution_start ++ (c1 ++ (solution_end ++ ('\n' :: (reasoning_start
        ++ a2 ++ reasoning_end ++ solution_start ++ c2 ++ solution_end))))))))).isSome := by
      have h1 := matchAt_isSome [] (a1 ++ (reasoning_end ++ (solution_start
        ++ (c1 ++ (solution_end ++ ('\n' :: (reasoning_start ++ a2 ++ reasoning_end
        ++ solution_start ++ c2 ++ solution_end))))))) (by simp)
        (reasoningPart_isSome a1 _ ha1
          (gapPart_isSome [] _ (solutionPart_isSome c1 _ hc1 (tailOK_newline _))))
      simpa using h1
    have hs := match_format_search_isSome _ hAt
    simp only [List.append_assoc] at hs
    simp only [match_format_exactly, List.map_cons, List.map_nil,
      match_format_exactly_score, List.append_assoc, hs, if_true]

/-- Witness for C6 (amended) at concrete block texts. -/
theorem match_format_exactly_search_iff_witness :
    match_format_exactly []
      [reasoning_start ++ "A".data ++ reasoning_end ++ solution_start ++ "1".data
        ++ solution_end ++ ('\n' :: (reasoning_start ++ "B".data ++ reasoning_end
        ++ solution_start ++ "2".data ++ solution_end))] [] = [3] :=
  (match_format_exactly_search_iff [] [] [] "A".data "1".data "B".data "2".data
    (by decide) (by decide)).2

/-- C6 counterexample: a completion consisting of two complete well-formed
tagged blocks on consecutive lines.  The tagged structure matches more than
once (one match attempt succeeds at position 0 and another at position 60,
just after the newline at position 59), yet `match_format_exactly` still
awards the 3.0 bonus, contradicting the claim that the bonus requires the
structure to match exactly once. -/
theorem match_format_exactly_double_match_cex :
    match_format_exactly []
      ["<start_working_out>A<end_working_out><SOLUTION>1</SOLUTION>\n<start_working_out>B<end_working_out><SOLUTION>2</SOLUTION>".data]
      [] = [3]
    ∧ (matchAt
        "<start_working_out>A<end_working_out><SOLUTION>1</SOLUTION>\n<start_working_out>B<end_working_out><SOLUTION>2</SOLUTION>".data).isSome
    ∧ ("<start_working_out>A<end_working_out><SOLUTION>1</SOLUTION>\n<start_working_out>B<end_working_out><SOLUTION>2</SOLUTION>".data)[59]?
        = some '\n'
    ∧ (matchAt
        (("<start_working_out>A<end_working_out><SOLUTION>1</SOLUTION>\n<start_working_out>B<end_working_out><SOLUTION>2</SOLUTION>".data).drop
          60)).isSome := by
  exact ⟨by decide, by decide, by decide, by decide⟩

/-- C4: the approximate-format score is the sum over the four markers of +0.5
if the marker occurs exactly once and -0.5 otherwise, i.e. 2 minus the number
of missing-or-duplicated markers; it is therefore strictly decreasing in that
number and attains its maximum 2.0 exactly when all four markers each occur
exactly once. -/
theorem match_format_approximately_marker_misses
    (prompts : List (List Char)) (kargs : List (List Char × List (List Char)))
    (r r2 : List Char) :
    match_format_approximately prompts [r] kargs = [2 - (marker_misses r : ℚ)]
    ∧ (2 - (marker_misses r : ℚ) = 2 ↔ (countOcc reasoning_start r = 1
        ∧ countOcc reasoning_end r = 1 ∧ countOcc solution_start r = 1
        ∧ countOcc solution_end r = 1))
    ∧ (marker_misses r < marker_misses r2 →
        2 - (marker_misses r2 : ℚ) < 2 - (marker_misses r : ℚ)) := by
  refine ⟨?_, ?_, ?_⟩
  · have h : match_format_approximately_score r = 2 - (marker_misses r : ℚ) := by
      simp only [match_format_approximately_score, marker_misses]
      split_ifs <;> norm_num
    simp [match_format_approximately, h]
  · constructor
    · intro h
      have hm : (marker_misses r : ℚ) = 0 := by linarith
      have hm2 : marker_misses r = 0 := by exact_mod_cast hm
      simp only [marker_misses] at hm2
      split_ifs at hm2 with h1 h2 h3 h4
      all_goals first
        | exact ⟨h1, h2, h3, h4⟩
        | omega
    · rintro ⟨h1, h2, h3, h4⟩
      simp [marker_misses, h1, h2, h3, h4]
  · intro h
    have hq : (marker_misses r : ℚ) < (marker_misses r2 : ℚ) := by exact_mod_cast h
    linarith

/-- Witness for C4: a completion with each marker exactly once scores
2 - 0 = 2, and a completion with all four markers missing scores strictly
less. -/
theorem match_format_approximately_marker_misses_witness :
    match_format_approximately []
      ["<start_working_out>A<end_working_out><SOLUTION>1</SOLUTION>".data] []
      = [2 - ((marker_misses
          "<start_working_out>A<end_working_out><SOLUTION>1</SOLUTION>".data : ℕ) : ℚ)]
    ∧ 2 - ((marker_misses "x".data : ℕ) : ℚ)
        < 2 - ((marker_misses
            "<start_working_out>A<end_working_out><SOLUTION>1</SOLUTION>".data : ℕ) : ℚ) :=
  ⟨(match_format_approximately_marker_misses [] []
      "<start_working_out>A<end_working_out><SOLUTION>1</SOLUTION>".data "x".data).1,
   (match_format_approximately_marker_misses [] []
      "<start_working_out>A<end_working_out><SOLUTION>1</SOLUTION>".data "x".data).2.2
      (by decide)⟩

/-- C3: when the answer extracted by the format regex is string-equal to the
ground truth, `check_answer` assigns the maximum correctness score 3.0; when
the two are equal only after stripping surrounding whitespace, it assigns
1.5. -/
theorem check_answer_exact_match
    (prompts : List (List Char)) (kargs : List (List Char × List (List Char)))
    (r t g : List Char) (hg : match_format_search r = some g) :
    (g = t → check_answer prompts [r] [t] kargs = [3])
    ∧ (g ≠ t → pyStrip g = pyStrip t → check_answer prompts [r] [t] kargs = [3 / 2]) := by
  constructor
  · intro h
    subst h
    simp [check_answer, hg, check_answer_score]
  · intro hne hstrip
    simp [check_answer, hg, check_answer_score, hne, hstrip]

/-- Witness for C3 at a concrete completion: exact equality and
equality-after-stripping. -/
theorem check_answer_exact_match_witness :
    check_answer [] ["<start_working_out>A<end_working_out><SOLUTION>2</SOLUTION>".data]
      ["2".data] [] = [3]
    ∧ check_answer [] ["<start_working_out>A<end_working_out><SOLUTION>2</SOLUTION>".data]
      [" 2".data] [] = [3 / 2] :=
  ⟨(check_answer_exact_match [] []
      "<start_working_out>A<end_working_out><SOLUTION>2</SOLUTION>".data
      "2".data "2".data (by decide)).1 rfl,
   (check_answer_exact_match [] []
      "<start_working_out>A<end_working_out><SOLUTION>2</SOLUTION>".data
      " 2".data "2".data (by decide)).2 (by decide) (by decide)⟩

theorem ratio_band (x y c : ℚ) (hy : y ≠ 0) :
    (1 - c ≤ x / y ∧ x / y ≤ 1 + c) ↔ |x - y| ≤ c * |y| := by
  have hy' : 0 < |y| := abs_pos.mpr hy
  have h1 : (1 - c ≤ x / y ∧ x / y ≤ 1 + c) ↔ |x / y - 1| ≤ c := by
    rw [abs_le]
    constructor
    · rintro ⟨ha, hb⟩
      exact ⟨by linarith, by linarith⟩
    · rintro ⟨ha, hb⟩
      exact ⟨by linarith, by linarith⟩
  rw [h1, div_sub_one hy, abs_div, div_le_iff₀ hy']

/-- C2: when the extracted answer is present, differs from the ground truth
exactly and after stripping, and both parse as numbers with non-zero ground
truth, `check_answer` scores 0.5 within the ±10 percent band, 0.25 within the
±20 percent band, and -1.0 outside both bands. -/
theorem check_answer_ratio_bands
    (prompts : List (List Char)) (kargs : List (List Char × List (List Char)))
    (r t g : List Char) (x y : ℚ)
    (hg : match_format_search r = some g) (hne : g ≠ t)
    (hns : pyStrip g ≠ pyStrip t)
    (hx : pyFloat g = some x) (hy : pyFloat t = some y) (hy0 : y ≠ 0) :
    (|x - y| ≤ |y| / 10 → check_answer prompts [r] [t] kargs = [1 / 2])
    ∧ (|y| / 10 < |x - y| → |x - y| ≤ |y| / 5 →
        check_answer prompts [r] [t] kargs = [1 / 4])
    ∧ (|y| / 5 < |x - y| → check_answer prompts [r] [t] kargs = [-1]) := by
  have hb1 := ratio_band x y (1 / 10) hy0
  have hb2 := ratio_band x y (1 / 5) hy0
  have habs : 0 ≤ |y| := abs_nonneg y
  refine ⟨?_, ?_, ?_⟩
  · intro h
    have hc1 : 9 / 10 ≤ x / y ∧ x / y ≤ 11 / 10 := by
      have h2 := hb1.mpr (by linarith)
      exact ⟨by linarith [h2.1], by linarith [h2.2]⟩
    simp [check_answer, hg, check_answer_score, hne, hns, hx, hy, hy0, hc1]
  · intro h1 h2
    have hnc1 : ¬(9 / 10 ≤ x / y ∧ x / y ≤ 11 / 10) := by
      rintro ⟨ha, hb⟩
      have h3 := hb1.mp ⟨by linarith, by linarith⟩
      linarith
    have hc2 : 4 / 5 ≤ x / y ∧ x / y ≤ 6 / 5 := by
      have h3 := hb2.mpr (by linarith)
      exact ⟨by linarith [h3.1], by linarith [h3.2]⟩
    simp [check_answer, hg, check_answer_score, hne, hns, hx, hy, hy0, hnc1, hc2]
  · intro h
    have hnc1 : ¬(9 / 10 ≤ x / y ∧ x / y ≤ 11 / 10) := by
      rintro ⟨ha, hb⟩
      have h3 := hb1.mp ⟨by linarith, by linarith⟩
      linarith
    have hnc2 : ¬(4 / 5 ≤ x / y ∧ x / y ≤ 6 / 5) := by
      rintro ⟨ha, hb⟩
      have h3 := hb2.mp ⟨by linarith, by linarith⟩
      linarith
    simp [check_answer, hg, check_answer_score, hne, hns, hx, hy, hy0, hnc1, hnc2]

/-- Witness for C2: extracted answer 95 against ground truth 100 lies in the
±10 percent band and scores 0.5. -/
theorem check_answer_ratio_bands_witness :
    check_answer [] ["<start_working_out>A<end_working_out><SOLUTION>95</SOLUTION>".data]
      ["100".data] [] = [1 / 2] := by
  have hx : pyFloat "95".data = some 95 := by
    have h : pyFloatParse "95".data = some (false, 95, 0, 0, 0) := by decide
    simp [pyFloat, h, pyFloatVal]
  have hy : pyFloat "100".data = some 100 := by
    have h : pyFloatParse "100".data = some (false, 100, 0, 0, 0) := by decide
    simp [pyFloat, h, pyFloatVal]
  have hband : |(95 : ℚ) - 100| ≤ |(100 : ℚ)| / 10 := by
    rw [show (95 : ℚ) - 100 = -5 by norm_num, abs_neg,
      abs_of_nonneg (by norm_num : (0 : ℚ) ≤ 5),
      abs_of_nonneg (by norm_num : (0 : ℚ) ≤ 100)]
    norm_num
  exact (check_answer_ratio_bands [] []
    "<start_working_out>A<end_working_out><SOLUTION>95</SOLUTION>".data
    "100".data "95".data 95 100 (by decide) (by decide) (by decide)
    hx hy (by norm_num)).1 hband

/-- C5: numeric parsing failures never escape: in `check_answer`, a present
extracted answer that differs from the ground truth (also after stripping)
scores the penalty -0.5 whenever converting either value to a number fails or
the ground truth parses to zero (division failure); in `check_numbers`, a
failing conversion of the extracted token or the ground truth scores 0. -/
theorem parse_failure_penalties
    (prompts : List (List Char)) (kargs : List (List Char × List (List Char)))
    (q : List (List Char)) (hk : kargs.lookup qkey = some q) (hq : q ≠ [])
    (r t g r2 t2 g2 : List Char)
    (hg : match_format_search r = some g) (hne : g ≠ t)
    (hns : pyStrip g ≠ pyStrip t)
    (hfail : pyFloat g = none ∨ pyFloat t = none ∨ pyFloat t = some 0)
    (hg2 : match_numbers_search r2 = some g2)
    (hfail2 : pyFloat (pyStrip t2) = none ∨ pyFloat (pyStrip g2) = none) :
    check_answer prompts [r] [t] kargs = [-(1 / 2)]
    ∧ check_numbers prompts [r2] [t2] kargs = .ok [0] := by
  constructor
  · rcases hfail with h | h | h
    · simp [check_answer, hg, check_answer_score, hne, hns, h]
    · rcases hpg : pyFloat g with _ | x
      all_goals simp [check_answer, hg, check_answer_score, hne, hns, h, hpg]
    · rcases hpg : pyFloat g with _ | x
      all_goals simp [check_answer, hg, check_answer_score, hne, hns, h, hpg]
  · have hqe : q.isEmpty = false := List.isEmpty_eq_false.mpr hq
    rcases hfail2 with h | h
    · simp [check_numbers, hk, hqe, check_numbers_score, hg2, h]
    · rcases hpt : pyFloat (pyStrip t2) with _ | y
      all_goals simp [check_numbers, hk, hqe, check_numbers_score, hg2, h, hpt]

/-- Witness for C5: a non-numeric extracted answer in `check_answer` scores
-0.5, and a malformed numeric token in `check_numbers` scores 0. -/
theorem parse_failure_penalties_witness :
    check_answer [] ["<start_working_out>A<end_working_out><SOLUTION>abc</SOLUTION>".data]
      ["7".data] [("question".data, ["why".data])] = [-(1 / 2)]
    ∧ check_numbers [] ["<SOLUTION>1.2.3</SOLUTION>".data] ["7".data]
      [("question".data, ["why".data])] = .ok [0] :=
  parse_failure_penalties [] [("question".data, ["why".data])] ["why".data]
    (by decide) (by decide)
    "<start_working_out>A<end_working_out><SOLUTION>abc</SOLUTION>".data
    "7".data "abc".data "<SOLUTION>1.2.3</SOLUTION>".data "7".data "1.2.3".data
    (by decide) (by decide) (by decide)
    (Or.inl (by decide)) (by decide) (Or.inr (by decide))

theorem splitFirst_of_first (pat : List Char) :
    ∀ (b a : List Char),
      (∀ b2 a2 : List Char, b ++ pat ++ a = b2 ++ pat ++ a2 → b.length ≤ b2.length) →
      splitFirst pat (b ++ pat ++ a) = some (b, a)
  | [], a, _ => by
    simp only [List.nil_append]
    cases hpa : pat ++ a with
    | nil =>
      rcases List.append_eq_nil.mp hpa with ⟨h1, h2⟩
      subst h1; subst h2
      simp [splitFirst]
    | cons c cs =>
      have hpre : pat.isPrefixOf (c :: cs) = true := by
        rw [← hpa]
        simp [List.isPrefixOf_iff_prefix]
      have hdrop : (c :: cs).drop pat.length = a := by
        rw [← hpa, List.drop_left]
      simp [splitFirst, hpre, hdrop]
  | c :: b, a, hmin => by
    have hne : pat.isPrefixOf (c :: (b ++ (pat ++ a))) = false := by
      by_contra hcon
      have hpre : pat <+: c :: (b ++ (pat ++ a)) := by
        have h2 : pat.isPrefixOf (c :: (b ++ (pat ++ a))) = true := by
          revert hcon
          cases pat.isPrefixOf (c :: (b ++ (pat ++ a))) <;> simp
        exact List.isPrefixOf_iff_prefix.mp h2
      rcases hpre with ⟨a2, ha2⟩
      have heq : (c :: b) ++ pat ++ a = [] ++ pat ++ a2 := by
        simp only [List.cons_append, List.nil_append, List.append_assoc]
        exact ha2.symm
      have h3 := hmin [] a2 heq
      simp at h3
    have hmin2 : ∀ b2 a2 : List Char, b ++ pat ++ a = b2 ++ pat ++ a2
        → b.length ≤ b2.length := by
      intro b2 a2 h
      have heq : (c :: b) ++ pat ++ a = (c :: b2) ++ pat ++ a2 := by
        simp only [List.cons_append, List.append_assoc] at h ⊢
        rw [h]
      have h4 := hmin (c :: b2) a2 heq
      simpa using h4
    have ih := splitFirst_of_first pat b a hmin2
    simp only [List.cons_append, List.append_assoc] at ih ⊢
    simp [splitFirst, hne, ih]

theorem match_numbers_extract (u v g w : List Char)
    (hfirst : ∀ u2 r2 : List Char,
      u ++ solution_start ++ (v ++ g ++ w) = u2 ++ solution_start ++ r2 →
        u.length ≤ u2.length)
    (hv : ∀ x ∈ v, isDigitDot x = false) (hgne : g ≠ [])
    (hgd : ∀ x ∈ g, isDigitDot x = true)
    (hw : w = [] ∨ ∃ c2 w2, w = c2 :: w2 ∧ isDigitDot c2 = false) :
    match_numbers_search (u ++ solution_start ++ (v ++ g ++ w)) = some g := by
  have hsf := splitFirst_of_first solution_start u (v ++ g ++ w) hfirst
  rcases List.exists_cons_of_ne_nil hgne with ⟨gh, gt, rfl⟩
  have hdw : (v ++ (gh :: gt) ++ w).dropWhile (fun c => !isDigitDot c)
      = gh :: (gt ++ w) := by
    rw [List.append_assoc,
      List.dropWhile_append_of_pos (by intro x hx; simp [hv x hx]),
      List.cons_append,
      List.dropWhile_cons_of_neg (by simp [hgd gh (List.mem_cons_self _ _)])]
  have htw : (gh :: (gt ++ w)).takeWhile isDigitDot = gh :: gt := by
    rw [List.takeWhile_cons_of_pos (hgd gh (List.mem_cons_self _ _)),
      List.takeWhile_append_of_pos (fun x hx => hgd x (List.mem_cons_of_mem _ hx))]
    rcases hw with rfl | ⟨c2, w2, rfl, hc2⟩
    · simp
    · rw [List.takeWhile_cons_of_neg (by simp [hc2])]
      simp
  simp only [match_numbers_search, hsf, hdw, htw]

/-- C7: `check_numbers` extracts the first maximal run of digit-or-dot
characters after the first solution-start marker; when that token and the
stripped ground truth both parse as numbers, the score is 1.5 if the two
numbers are equal and 0.0 otherwise; when no solution-start marker or no
digit-or-dot token exists, the score is 0. -/
theorem check_numbers_extraction_spec
    (prompts : List (List Char)) (kargs : List (List Char × List (List Char)))
    (q : List (List Char)) (hk : kargs.lookup qkey = some q) (hq : q ≠ [])
    (t u v g w : List Char)
    (hfirst : ∀ u2 r2 : List Char,
      u ++ solution_start ++ (v ++ g ++ w) = u2 ++ solution_start ++ r2 →
        u.length ≤ u2.length)
    (hv : ∀ x ∈ v, isDigitDot x = false) (hgne : g ≠ [])
    (hgd : ∀ x ∈ g, isDigitDot x = true)
    (hw : w = [] ∨ ∃ c2 w2, w = c2 :: w2 ∧ isDigitDot c2 = false) :
    match_numbers_search (u ++ solution_start ++ (v ++ g ++ w)) = some g
    ∧ (∀ x y : ℚ, pyFloat (pyStrip t) = some y → pyFloat (pyStrip g) = some x →
        check_numbers prompts [u ++ solution_start ++ (v ++ g ++ w)] [t] kargs
          = .ok [if x = y then 3 / 2 else 0])
    ∧ (∀ s : List Char, splitFirst solution_start s = none →
        check_numbers prompts [s] [t] kargs = .ok [0])
    ∧ (∀ s pre rest : List Char, splitFirst solution_start s = some (pre, rest) →
        (∀ x ∈ rest, isDigitDot x = false) →
        check_numbers prompts [s] [t] kargs = .ok [0]) := by
  have hqe : q.isEmpty = false := List.isEmpty_eq_false.mpr hq
  have hext := match_numbers_extract u v g w hfirst hv hgne hgd hw
  have hext3 := hext
  simp only [List.append_assoc] at hext3
  refine ⟨hext, ?_, ?_, ?_⟩
  · intro x y hy hx
    simp [check_numbers, hk, hqe, check_numbers_score, hext3, hy, hx]
  · intro s hs
    have hext2 : match_numbers_search s = none := by
      simp [match_numbers_search, hs]
    simp [check_numbers, hk, hqe, check_numbers_score, hext2]
  · intro s pre rest hs hrest
    have hdw2 : rest.dropWhile (fun c => !isDigitDot c) = [] := by
      apply dropWhile_eq_nil_of_all
      intro x hx
      simp [hrest x hx]
    have hext2 : match_numbers_search s = none := by
      simp [match_numbers_search, hs, hdw2]
    simp [check_numbers, hk, hqe, check_numbers_score, hext2]

/-- Witness for C7: the token 42 is extracted from text around it and scores
1.5 against ground truth 42; a completion without the marker and one with no
numeric token both score 0. -/
theorem check_numbers_extraction_spec_witness :
    match_numbers_search ("".data ++ solution_start
      ++ ("the answer is ".data ++ "42".data ++ "!</SOLUTION>".data)) = some "42".data
    ∧ check_numbers [] ["".data ++ solution_start
        ++ ("the answer is ".data ++ "42".data ++ "!</SOLUTION>".data)] ["42".data]
        [("question".data, ["why".data])] = .ok [if (42 : ℚ) = 42 then 3 / 2 else 0]
    ∧ check_numbers [] ["no marker here".data] ["42".data]
        [("question".data, ["why".data])] = .ok [0] := by
  have hx : pyFloat (pyStrip "42".data) = some 42 := by
    have h : pyFloatParse (pyStrip "42".data) = some (false, 42, 0, 0, 0) := by decide
    simp [pyFloat, h, pyFloatVal]
  have hmain := check_numbers_extraction_spec [] [("question".data, ["why".data])]
    ["why".data] (by decide) (by decide) "42".data "".data "the answer is ".data
    "42".data "!</SOLUTION>".data
    (fun u2 r2 h2 => Nat.zero_le u2.length)
    (by decide) (by decide) (by decide)
    (Or.inr ⟨'!', "</SOLUTION>".data, rfl, by decide⟩)
  exact ⟨hmain.1, hmain.2.1 42 42 hx hx, hmain.2.2.1 "no marker here".data (by decide)⟩

theorem check_answer_loop_ok :
    ∀ (gs : List (Option (List Char))) (ts : List (List Char)),
      check_answer_loop (gs.zip (ts.map some))
        = .ok (List.zipWith check_answer_score gs ts)
  | [], _ => rfl
  | _ :: _, [] => rfl
  | g :: gs, t :: ts => by
    have hstep : check_answer_score_exc g (some t) = .ok (check_answer_score g t) := by
      cases g <;> rfl
    show check_answer_loop ((g, some t) :: gs.zip (ts.map some)) = _
    simp only [check_answer_loop]
    rw [hstep, check_answer_loop_ok gs ts]
    rfl

/-- C8: `check_answer` is total when every ground truth answer is a string,
but a present extracted answer compared against a `None` ground truth (the
value `extract_hash_answer` returns whenever the source text lacks "####")
raises an uncaught `AttributeError` from `None.strip()` instead of returning
a score. -/
theorem check_answer_none_ground_truth :
    (∀ (prompts completions answer : List (List Char))
        (kargs : List (List Char × List (List Char))),
        check_answer_opt prompts completions (answer.map some) kargs
          = .ok (check_answer prompts completions answer kargs))
    ∧ extract_hash_answer "no hash answer".data = none
    ∧ check_answer_opt []
        ["<start_working_out>A<end_working_out><SOLUTION>2</SOLUTION>".data]
        [none] [] = .error () := by
  refine ⟨?_, by decide, by rfl⟩
  intro p cs ans k
  simp [check_answer_opt, check_answer, check_answer_loop_ok]

/-- C9 counterexample: applied to completion and answer lists of length 0,
with all-string answers and the question keyword supplied (with a nonempty
value), `check_numbers` does not return a list of 0 scores: it raises
`IndexError` while printing `answer[0]` and `responses[0]`. -/
theorem check_numbers_empty_batch_cex :
    check_numbers [] [] [] [("question".data, ["why".data])] = .error () := by rfl

/-- C9 (amended): each reward function returns one score per completion, the
i-th score depending only on the i-th completion (and i-th ground-truth
answer), in input order — except that `check_numbers` additionally requires a
nonempty completion list, answer list and question value, because it prints
the first element of each. -/
theorem reward_scores_elementwise
    (prompts cs ans : List (List Char))
    (kargs : List (List Char × List (List Char)))
    (hlen : cs.length = ans.length) :
    ((match_format_exactly prompts cs kargs).length = cs.length
      ∧ ∀ i : ℕ, (match_format_exactly prompts cs kargs)[i]?
          = (cs[i]?).map match_format_exactly_score)
    ∧ ((match_format_approximately prompts cs kargs).length = cs.length
      ∧ ∀ i : ℕ, (match_format_approximately prompts cs kargs)[i]?
          = (cs[i]?).map match_format_approximately_score)
    ∧ ((check_answer prompts cs ans kargs).length = cs.length
      ∧ ∀ i : ℕ, (check_answer prompts cs ans kargs)[i]?
          = (cs[i]?).bind fun c => (ans[i]?).map fun a =>
              check_answer_score (match_format_search c) a)
    ∧ (∀ q : List (List Char), kargs.lookup qkey = some q → q ≠ [] → cs ≠ [] →
        check_numbers prompts cs ans kargs
          = .ok (List.zipWith check_numbers_score (cs.map match_numbers_search) ans)
        ∧ (List.zipWith check_numbers_score (cs.map match_numbers_search) ans).length
            = cs.length
        ∧ ∀ i : ℕ,
            (List.zipWith check_numbers_score (cs.map match_numbers_search) ans)[i]?
              = (cs[i]?).bind fun c => (ans[i]?).map fun a =>
                  check_numbers_score (match_numbers_search c) a) := by
  refine ⟨⟨?_, ?_⟩, ⟨?_, ?_⟩, ⟨?_, ?_⟩, ?_⟩
  · simp [match_format_exactly]
  · intro i
    simp [match_format_exactly, List.getElem?_map]
  · simp [match_format_approximately]
  · intro i
    simp [match_format_approximately, List.getElem?_map]
  · simp [check_answer, hlen]
  · intro i
    simp only [check_answer, List.getElem?_zipWith, List.getElem?_map]
    rcases hc : cs[i]? with _ | c <;> rcases ha2 : ans[i]? with _ | a <;> simp
  · intro q hk hq hcs
    have hans : ans ≠ [] := by
      intro h2
      subst h2
      simp only [List.length_nil] at hlen
      exact hcs (List.length_eq_zero.mp hlen)
    refine ⟨?_, ?_, ?_⟩
    · simp [check_numbers, hk, List.isEmpty_eq_false.mpr hq,
        List.isEmpty_eq_false.mpr hans, List.isEmpty_eq_false.mpr hcs]
    · simp [hlen]
    · intro i
      simp only [List.getElem?_zipWith, List.getElem?_map]
      rcases hc : cs[i]? with _ | c <;> rcases ha2 : ans[i]? with _ | a <;> simp

/-- Witness for C9 (amended): `check_numbers` on a singleton batch with the
question keyword supplied, and `match_format_exactly` returning an empty
score list on an empty completion list with no keyword arguments at all. -/
theorem reward_scores_elementwise_witness :
    check_numbers [] ["x".data] ["1".data] [("question".data, ["why".data])]
      = .ok (List.zipWith check_numbers_score
          (["x".data].map match_numbers_search) ["1".data])
    ∧ (match_format_exactly [] [] []).length = 0 :=
  ⟨((reward_scores_elementwise [] ["x".data] ["1".data]
      [("question".data, ["why".data])] rfl).2.2.2 ["why".data]
      (by decide) (by decide) (by decide)).1,
   (reward_scores_elementwise [] [] [] [] rfl).1.1⟩

/-- C10 counterexample: two `check_numbers` calls agreeing on completions and
answers, both supplying the question keyword argument, return different
results when one question value is an empty batch: printing `question[0]`
raises `IndexError` even though the value is only printed. -/
theorem check_numbers_question_value_cex :
    check_numbers [] ["x".data] ["1".data] [("question".data, ["q".data])]
      ≠ check_numbers [] ["x".data] ["1".data] [("question".data, [])] := by
  intro h
  have h1 : check_numbers [] ["x".data] ["1".data] [("question".data, ["q".data])]
      = .ok [0] := rfl
  have h2 : check_numbers [] ["x".data] ["1".data] [("question".data, [])]
      = .error () := rfl
  rw [h1, h2] at h
  exact Except.noConfusion h

/-- C10 (amended): the reward scores do not depend on the prompts argument or
on extra keyword arguments: calls agreeing on completions (and, where taken,
answers) return equal score lists, where for `check_numbers` both calls must
supply a nonempty question value (its first element is printed; an absent
key raises `KeyError` and an empty value raises `IndexError`). -/
theorem rewards_ignore_prompts_and_kwargs
    (p1 p2 cs ans : List (List Char))
    (k1 k2 : List (List Char × List (List Char))) :
    match_format_exactly p1 cs k1 = match_format_exactly p2 cs k2
    ∧ match_format_approximately p1 cs k1 = match_format_approximately p2 cs k2
    ∧ check_answer p1 cs ans k1 = check_answer p2 cs ans k2
    ∧ (∀ q1 q2 : List (List Char),
        k1.lookup qkey = some q1 → k2.lookup qkey = some q2 →
        q1 ≠ [] → q2 ≠ [] →
        check_numbers p1 cs ans k1 = check_numbers p2 cs ans k2) := by
  refine ⟨rfl, rfl, rfl, ?_⟩
  intro q1 q2 h1 h2 hq1 hq2
  simp [check_numbers, h1, h2, List.isEmpty_eq_false.mpr hq1,
    List.isEmpty_eq_false.mpr hq2]

/-- Witness for C10 (amended): `check_answer` agrees across two calls that
differ in prompts and keyword arguments with no question keyword at all, and
`check_numbers` agrees across two calls with different nonempty question
values, one call carrying an extra keyword. -/
theorem rewards_ignore_prompts_and_kwargs_witness :
    check_answer ["p1".data] ["x".data] ["1".data] []
      = check_answer ["p2".data] ["x".data] ["1".data]
        [("extra".data, ["z".data])]
    ∧ check_numbers ["p1".data] ["x".data] ["1".data]
        [("question".data, ["a".data])]
      = check_numbers ["p2".data] ["x".data] ["1".data]
        [("extra".data, ["z".data]), ("question".data, ["b".data])] :=
  ⟨(rewards_ignore_prompts_and_kwargs ["p1".data] ["p2".data] ["x".data] ["1".data]
      [] [("extra".data, ["z".data])]).2.2.1,
   (rewards_ignore_prompts_and_kwargs ["p1".data] ["p2".data] ["x".data] ["1".data]
      [("question".data, ["a".data])]
      [("extra".data, ["z".data]), ("question".data, ["b".data])]).2.2.2
      ["a".data] ["b".data] (by decide) (by decide) (by decide) (by decide)⟩
